import Mathlib

/-!
Shallow embedding of the device-driver layer of the STM32 inclinometer
(gilleshenrard/STM32-inclinometer): the ADXL345 accelerometer driver
(src/Core/Src/hardware/accelerometer/ADXL345.c) and the SSD1306 display
driver (src/Core/Src/hardware/screen/SSD1306.c).

The SPI bus, the DMA controller, GPIO and the millisecond tick source are
external collaborators; each driver invocation is modelled as a function of
an environment describing what those collaborators do during that
invocation (whether each timed bus transaction times out, which bytes a
burst read delivers, the state of the watermark/DMA/timer flags).  Every
state function returns the updated driver context, the returned error code,
and the number of timed bus transactions performed during the invocation.
-/

/-- Modelled from the spec: the error code model (section 4.1).  The
errorstack source is not under src/; the spec describes a code as
origin, detail, severity, with severity none = 0 meaning success. -/
structure ErrorCode where
  origin : Nat
  detail : Nat
  severity : Nat
deriving DecidableEq, Repr

/-- Severity value for recoverable warnings. -/
def ERR_WARNING : Nat := 1

/-- Severity value for errors that drive the accelerometer to its Error state. -/
def ERR_ERROR : Nat := 2

/-- Severity value for critical failures (startup identity timeout). -/
def ERR_CRITICAL : Nat := 3

/-- Modelled from the spec: the zero value of the error code type, the success code. -/
def ERR_SUCCESS : ErrorCode := ⟨0, 0, 0⟩

/-- Modelled from the spec: create(origin, detail, severity), used where a
failure is first detected. -/
def createErrorCode (origin detail severity : Nat) : ErrorCode :=
  ⟨origin, detail, severity⟩

/-- Modelled from the spec: push(inner, origin, detail) overwrites the origin,
keeps the highest severity seen, and keeps the innermost non-zero detail
(or takes the new one if the prior code was success). -/
def pushErrorCode (inner : ErrorCode) (origin detail : Nat) : ErrorCode :=
  ⟨origin, if inner.detail ≠ 0 then inner.detail else detail, inner.severity⟩

/-- Modelled from the spec: isFailure(code), true iff severity is not none.
The source calls this test isError. -/
def isError (c : ErrorCode) : Bool := c.severity ≠ 0

namespace ADXL345

/-- SPI direct transmission timeout span in milliseconds. -/
def SPI_TIMEOUT_MS : Nat := 10

/-- Maximum number of milliseconds before watermark interrupt timeout. -/
def INT_TIMEOUT_MS : Nat := 1000

/-- Number of registers configured at initialisation. -/
def NB_REG_INIT : Nat := 6

/-- Amount of samples to integrate in the ADXL (ADXL_SAMPLES_32). -/
def ADXL_AVG_SAMPLES : Nat := 32

/-- Number used to shift the samples sum in order to divide it during integration. -/
def ADXL_AVG_SHIFT : Nat := 5

/-- Number of milliseconds to wait for self-testing to be operating. -/
def ST_WAIT_MS : Nat := 25

/-- Modelled from the spec: ADXL345registers.h is not under src/.  Highest
addressable register number of the device (0x39 per the datasheet). -/
def ADXL_REGISTER_MAXNB : Nat := 0x39

/-- Modelled from the spec: upper end of the reserved register range
(registers 0x01 to 0x1C are reserved per the datasheet). -/
def ADXL_HIGH_RESERVED_REG : Nat := 0x1C

/-- Device identity register number. -/
def DEVICE_ID : Nat := 0x00

/-- Expected device identity byte. -/
def ADXL_DEVICE_ID : Nat := 0xE5

/-- Data format register number. -/
def DATA_FORMAT : Nat := 0x31

/-- Bandwidth / power mode register number. -/
def BANDWIDTH_POWERMODE : Nat := 0x2C

/-- Power control register number. -/
def POWER_CONTROL : Nat := 0x2D

/-- Interrupt enable register number. -/
def INTERRUPT_ENABLE : Nat := 0x2E

/-- FIFO control register number. -/
def FIFO_CONTROL : Nat := 0x38

/-- First data register number (X axis low byte). -/
def DATA_X0 : Nat := 0x32

/-- Number of data registers read for one sample (two bytes per axis). -/
def ADXL_NB_DATA_REGISTERS : Nat := 6

/-- Modelled from the spec: register values written at configuration.  The
exact bit patterns come from ADXL345registers.h (not under src/); the bus
model does not interpret written values, so only their identity as the
documented configuration bytes matters. -/
def DATA_FORMAT_DEFAULT : Nat := 0x0B

/-- Self-test enable bit of the data format register. -/
def ADXL_SELF_TEST : Nat := 0x80

/-- FIFO bypass mode value of the FIFO control register. -/
def ADXL_MODE_BYPASS : Nat := 0x00

/-- Default FIFO control value: FIFO mode, watermark at ADXL_AVG_SAMPLES. -/
def FIFO_CONTROL_DEFAULT : Nat := 0x5F

/-- Normal power, 200 Hz output rate value. -/
def ADXL_POWER_NORMAL_RATE_200HZ : Nat := 0x0B

/-- Measurement mode value of the power control register. -/
def ADXL_MEASURE_MODE : Nat := 0x08

/-- Watermark interrupt enable value. -/
def ADXL_INT_WATERMARK : Nat := 0x02

/-- Function identifier ADXL345initialise. -/
def INIT : Nat := 0

/-- Function identifier stMeasuringST_OFF. -/
def SELF_TESTING_OFF : Nat := 1

/-- Function identifier stWaitingForSTenabled. -/
def SELF_TEST_WAIT : Nat := 2

/-- Function identifier stMeasuringST_ON. -/
def SELF_TESTING_ON : Nat := 3

/-- Function identifier stMeasuring. -/
def MEASURE : Nat := 4

/-- Function identifier ADXL345writeRegister. -/
def WRITE_REGISTER : Nat := 6

/-- Function identifier ADXL345readRegisters. -/
def READ_REGISTERS : Nat := 7

/-- Function identifier integrateFIFO. -/
def INTEGRATE : Nat := 10

/-- Function identifier stStartup. -/
def STARTUP : Nat := 12

/-- Environment of one driver invocation: the watermark input pin (active
condition already decoded, as in isFIFOdataReady), whether the k-th timed
bus transaction of the invocation times out, and which byte the k-th
transaction delivers at position j of a burst read. -/
structure AdxlEnv where
  fifoReady : Bool
  timedOut : Nat → Bool
  data : Nat → Nat → Nat

/-- States of the accelerometer state machine. -/
inductive AdxlState where
  | startup
  | configuring
  | measuringSTOff
  | waitingForSTenabled
  | measuringSTOn
  | measuring
  | error
deriving DecidableEq, Repr

/-- Module state of the ADXL345 driver: current machine state, the shared
countdown timer adxlTimer_ms, the three sample sets and the updated flag. -/
structure AdxlCtx where
  state : AdxlState
  timer : Nat
  latest : Int × Int × Int
  previous : Int × Int × Int
  zero : Int × Int × Int
  updated : Bool
deriving DecidableEq, Repr

/-- The three measurement axes. -/
inductive Axis where
  | X
  | Y
  | Z
deriving DecidableEq, Repr

/-- Read one axis of a sample triple. -/
def axisGet (v : Int × Int × Int) : Axis → Int
  | .X => v.1
  | .Y => v.2.1
  | .Z => v.2.2

/-- Write one axis of a sample triple. -/
def axisSet (v : Int × Int × Int) (a : Axis) (x : Int) : Int × Int × Int :=
  match a with
  | .X => (x, v.2.1, v.2.2)
  | .Y => (v.1, x, v.2.2)
  | .Z => (v.1, v.2.1, x)

/-- writeRegister from the source: reject a register number above the
addressable maximum or in the reserved range before touching the bus
((uint8_t)(registerNumber - 1) < ADXL_HIGH_RESERVED_REG is modelled as
(registerNumber + 255) % 256 < ADXL_HIGH_RESERVED_REG), otherwise perform
one timed transaction which either completes or times out.  Returns the
error code and the next transaction slot (slots consumed = transactions
performed). -/
def writeRegister (registerNumber _value : Nat) (env : AdxlEnv) (k : Nat) :
    ErrorCode × Nat :=
  if registerNumber > ADXL_REGISTER_MAXNB ∨
      (registerNumber + 255) % 256 < ADXL_HIGH_RESERVED_REG then
    (createErrorCode WRITE_REGISTER 1 ERR_WARNING, k)
  else if env.timedOut k then
    (createErrorCode WRITE_REGISTER 2 ERR_WARNING, k + 1)
  else
    (ERR_SUCCESS, k + 1)

/-- readRegisters from the source: zero requested bytes is a no-op success;
a starting register above the addressable maximum is rejected before
touching the bus (note: unlike writeRegister, no reserved-range check);
otherwise one timed burst transaction delivers size bytes or times out.
Returns the code, the bytes read and the next transaction slot. -/
def readRegisters (firstRegister size : Nat) (env : AdxlEnv) (k : Nat) :
    ErrorCode × List Nat × Nat :=
  if size = 0 then
    (ERR_SUCCESS, [], k)
  else if firstRegister > ADXL_REGISTER_MAXNB then
    (createErrorCode READ_REGISTERS 1 ERR_WARNING, [], k)
  else if env.timedOut k then
    (createErrorCode READ_REGISTERS 2 ERR_WARNING, [], k + 1)
  else
    (ERR_SUCCESS, (List.range size).map (env.data k), k + 1)

/-- twoComplement from the source: reassemble a little-endian two's
complement 16-bit value from two bytes (LSB first). -/
def twoComplement (lo hi : Nat) : Int :=
  if (hi % 256) * 256 + lo % 256 < 32768 then
    ((hi % 256) * 256 + lo % 256 : Nat)
  else
    ((hi % 256) * 256 + lo % 256 : Nat) - 65536

/-- Arithmetic right shift of a two's-complement signed value, as performed
by the compiler on this target (the source notes it was tested to divide
negatives correctly): equal to floor division by 2 ^ s. -/
def sar (x : Int) (s : Nat) : Int := Int.fdiv x (2 ^ s)

/-- Add the three axis samples encoded in one six-byte burst read to the
per-axis accumulators (values[axis] += twoComplement(&buffer[axis << 1])). -/
def addSample (acc : Int × Int × Int) (bytes : List Nat) : Int × Int × Int :=
  (acc.1 + twoComplement (bytes.getD 0 0) (bytes.getD 1 0),
   acc.2.1 + twoComplement (bytes.getD 2 0) (bytes.getD 3 0),
   acc.2.2 + twoComplement (bytes.getD 4 0) (bytes.getD 5 0))

/-- The sample-reading loop of integrateFIFO: burst-read the six data
registers once per remaining sample, accumulating per axis, stopping with a
pushed error if a read fails (the 5 microsecond busy-wait between reads has
no observable effect in this model). -/
def integrateLoop (env : AdxlEnv) :
    Nat → Nat → Int × Int × Int → ErrorCode × (Int × Int × Int) × Nat
  | 0, k, acc => (ERR_SUCCESS, acc, k)
  | n + 1, k, acc =>
    match readRegisters DATA_X0 ADXL_NB_DATA_REGISTERS env k with
    | (code, bytes, k1) =>
      if isError code then
        (pushErrorCode code INTEGRATE 1, acc, k1)
      else
        integrateLoop env n k1 (addSample acc bytes)

/-- integrateFIFO from the source: accumulate ADXL_AVG_SAMPLES burst samples
per axis, then arithmetically shift each accumulator right by
ADXL_AVG_SHIFT.  On a read failure the partial (unaveraged) accumulators
are returned with the pushed error, as the source leaves them in the
caller's array; the source also sets the machine state to the error state,
which every caller repeats, so the state change is left to the callers. -/
def integrateFIFO (env : AdxlEnv) (k : Nat) :
    ErrorCode × (Int × Int × Int) × Nat :=
  match integrateLoop env ADXL_AVG_SAMPLES k (0, 0, 0) with
  | (code, acc, k1) =>
    if isError code then
      (code, acc, k1)
    else
      (ERR_SUCCESS,
        (sar acc.1 ADXL_AVG_SHIFT, sar acc.2.1 ADXL_AVG_SHIFT,
          sar acc.2.2 ADXL_AVG_SHIFT), k1)

/-- ADXL345hasChanged from the source: return whether the latest sample of
the axis differs from the previously compared one, and overwrite the
previously compared sample with the latest as a side effect. -/
def ADXL345hasChanged (axis : Axis) (ctx : AdxlCtx) : Bool × AdxlCtx :=
  (axisGet ctx.latest axis != axisGet ctx.previous axis,
   { ctx with previous := axisSet ctx.previous axis (axisGet ctx.latest axis) })

/-- getAngleDegreesTenths from the source: return 0 when the Z sample is
exactly zero, otherwise the single-argument arctangent of the compensated
axis sample over the Z sample, converted to tenths of degrees.  The
floating-point arctangent conversion is kept as an abstract parameter
(float computation is outside the embedding); the Z-zero guard and the
zero-offset compensation are from the source. -/
def getAngleDegreesTenths (atanDegreesTenths : Int → Int → Int)
    (ctx : AdxlCtx) (axis : Axis) : Int :=
  if ctx.latest.2.2 = 0 then 0
  else atanDegreesTenths (axisGet ctx.latest axis + axisGet ctx.zero axis)
    ctx.latest.2.2

/-- stStartup from the source: on outer timeout go to the error state with a
critical code; on a failed identity read return the pushed code without
changing state; on a non-matching identity stay to retry; on a match
advance to configuring. -/
def stStartup (env : AdxlEnv) (ctx : AdxlCtx) : AdxlCtx × ErrorCode × Nat :=
  if ctx.timer = 0 then
    ({ ctx with state := .error }, createErrorCode STARTUP 1 ERR_CRITICAL, 0)
  else
    match readRegisters DEVICE_ID 1 env 0 with
    | (code, bytes, k1) =>
      if isError code then
        (ctx, pushErrorCode code STARTUP 2, k1)
      else if bytes.getD 0 0 ≠ ADXL_DEVICE_ID then
        (ctx, ERR_SUCCESS, k1)
      else
        ({ ctx with state := .configuring }, ERR_SUCCESS, k1)

/-- The fixed ordered configuration sequence of stConfiguring (register,
value) pairs: data format, output rate, FIFO bypass to flush, FIFO
watermark mode, measurement mode, watermark interrupt enable last. -/
def initialisationArray : List (Nat × Nat) :=
  [(DATA_FORMAT, DATA_FORMAT_DEFAULT),
   (BANDWIDTH_POWERMODE, ADXL_POWER_NORMAL_RATE_200HZ),
   (FIFO_CONTROL, ADXL_MODE_BYPASS),
   (FIFO_CONTROL, FIFO_CONTROL_DEFAULT),
   (POWER_CONTROL, ADXL_MEASURE_MODE),
   (INTERRUPT_ENABLE, ADXL_INT_WATERMARK)]

/-- The write loop of stConfiguring: write each configuration register in
order, stopping at the first failure. -/
def configLoop (env : AdxlEnv) : List (Nat × Nat) → Nat → ErrorCode × Nat
  | [], k => (ERR_SUCCESS, k)
  | rv :: rest, k =>
    match writeRegister rv.1 rv.2 env k with
    | (code, k1) =>
      if isError code then (code, k1)
      else configLoop env rest k1

/-- stConfiguring from the source: write the fixed configuration sequence;
on any failure go to the error state with the pushed code; on success reset
the outer timer to its full span and advance to measuringSTOff. -/
def stConfiguring (env : AdxlEnv) (ctx : AdxlCtx) : AdxlCtx × ErrorCode × Nat :=
  match configLoop env initialisationArray 0 with
  | (code, k1) =>
    if isError code then
      ({ ctx with state := .error }, pushErrorCode code INIT 1, k1)
    else
      ({ ctx with timer := INT_TIMEOUT_MS, state := .measuringSTOff },
        ERR_SUCCESS, k1)

/-- stMeasuringST_OFF from the source: on outer timeout go to error; wait
for the watermark; integrate the FIFO into the latest values (partial sums
remain on failure), enable the self-test bit, clear the FIFOs via bypass,
then arm the 25 ms settle timer and advance to waitingForSTenabled. -/
def stMeasuringST_OFF (env : AdxlEnv) (ctx : AdxlCtx) :
    AdxlCtx × ErrorCode × Nat :=
  if ctx.timer = 0 then
    ({ ctx with state := .error }, createErrorCode SELF_TESTING_OFF 1 ERR_ERROR, 0)
  else if env.fifoReady = false then
    (ctx, ERR_SUCCESS, 0)
  else
    match integrateFIFO env 0 with
    | (code, vals, k1) =>
      if isError code then
        ({ ctx with latest := vals, state := .error },
          pushErrorCode code SELF_TESTING_OFF 2, k1)
      else
        match writeRegister DATA_FORMAT (DATA_FORMAT_DEFAULT ||| ADXL_SELF_TEST) env k1 with
        | (code2, k2) =>
          if isError code2 then
            ({ ctx with latest := vals, state := .error },
              pushErrorCode code2 SELF_TESTING_OFF 3, k2)
          else
            match writeRegister FIFO_CONTROL ADXL_MODE_BYPASS env k2 with
            | (code3, k3) =>
              if isError code3 then
                ({ ctx with latest := vals, state := .error },
                  pushErrorCode code3 SELF_TESTING_OFF 4, k3)
              else
                ({ ctx with latest := vals, timer := ST_WAIT_MS, state := .waitingForSTenabled }, ERR_SUCCESS, k3)

/-- stWaitingForSTenabled from the source, exactly as written: when the
countdown timer has reached zero the function returns success without doing
anything; while the timer is still nonzero it immediately writes the FIFO
watermark re-enable value and, on success, resets the outer timer and
advances to measuringSTOn (the source comment says the intent is to exit
while the timer has not elapsed yet, but the code tests !adxlTimer_ms). -/
def stWaitingForSTenabled (env : AdxlEnv) (ctx : AdxlCtx) :
    AdxlCtx × ErrorCode × Nat :=
  if ctx.timer = 0 then
    (ctx, ERR_SUCCESS, 0)
  else
    match writeRegister FIFO_CONTROL FIFO_CONTROL_DEFAULT env 0 with
    | (code, k1) =>
      if isError code then
        ({ ctx with state := .error }, pushErrorCode code SELF_TEST_WAIT 1, k1)
      else
        ({ ctx with timer := INT_TIMEOUT_MS, state := .measuringSTOn },
          ERR_SUCCESS, k1)

/-- ADXL self-test minimum and maximum delta values per axis at 13-bit
resolution, 16 g range and 3.3 V supply, from the source. -/
def ST_MAXDELTAS : Axis → Int × Int
  | .X => (85, 949)
  | .Y => (-949, -85)
  | .Z => (118, 1294)

/-- The self-test rejection condition of stMeasuringST_ON, exactly as in the
source: a delta less than or equal to the lower bound, or greater than or
equal to the upper bound, of its axis window is out of range. -/
def selfTestOutOfRange (dx dy dz : Int) : Bool :=
  decide (dx ≤ (ST_MAXDELTAS .X).1) || decide (dx ≥ (ST_MAXDELTAS .X).2) ||
  decide (dy ≤ (ST_MAXDELTAS .Y).1) || decide (dy ≥ (ST_MAXDELTAS .Y).2) ||
  decide (dz ≤ (ST_MAXDELTAS .Z).1) || decide (dz ≥ (ST_MAXDELTAS .Z).2)

/-- stMeasuringST_ON from the source: on outer timeout go to error; wait for
the watermark; integrate the FIFO into a second sample set; subtract the
baseline to obtain the deltas; reject if any delta is out of its window
(pushing onto the success code held in _result at that point) and go to
error; otherwise restore the data format, reset the outer timer and advance
to measuring. -/
def stMeasuringST_ON (env : AdxlEnv) (ctx : AdxlCtx) :
    AdxlCtx × ErrorCode × Nat :=
  if ctx.timer = 0 then
    ({ ctx with state := .error }, createErrorCode SELF_TESTING_ON 1 ERR_ERROR, 0)
  else if env.fifoReady = false then
    (ctx, ERR_SUCCESS, 0)
  else
    match integrateFIFO env 0 with
    | (code, vals, k1) =>
      if isError code then
        ({ ctx with state := .error }, pushErrorCode code SELF_TESTING_ON 2, k1)
      else
        if selfTestOutOfRange (vals.1 - ctx.latest.1) (vals.2.1 - ctx.latest.2.1)
            (vals.2.2 - ctx.latest.2.2) then
          ({ ctx with state := .error }, pushErrorCode code SELF_TESTING_ON 3, k1)
        else
          match writeRegister DATA_FORMAT DATA_FORMAT_DEFAULT env k1 with
          | (code2, k2) =>
            if isError code2 then
              ({ ctx with state := .error }, pushErrorCode code2 SELF_TESTING_ON 4, k2)
            else
              ({ ctx with timer := INT_TIMEOUT_MS, state := .measuring },
                ERR_SUCCESS, k2)

/-- stMeasuring from the source: on outer timeout go to error; wait for the
watermark; reset the outer timer, integrate the FIFO into the latest values
(partial sums remain on failure) and mark the measurements updated. -/
def stMeasuring (env : AdxlEnv) (ctx : AdxlCtx) : AdxlCtx × ErrorCode × Nat :=
  if ctx.timer = 0 then
    ({ ctx with state := .error }, createErrorCode MEASURE 1 ERR_ERROR, 0)
  else if env.fifoReady = false then
    (ctx, ERR_SUCCESS, 0)
  else
    match integrateFIFO env 0 with
    | (code, vals, k1) =>
      if isError code then
        ({ ctx with timer := INT_TIMEOUT_MS, latest := vals, state := .error },
          pushErrorCode code MEASURE 2, k1)
      else
        ({ ctx with timer := INT_TIMEOUT_MS, latest := vals, updated := true },
          ERR_SUCCESS, k1)

/-- stError from the source: the drain state, does nothing forever. -/
def stError (_env : AdxlEnv) (ctx : AdxlCtx) : AdxlCtx × ErrorCode × Nat :=
  (ctx, ERR_SUCCESS, 0)

/-- ADXL345update from the source: dispatch exactly one invocation of the
current state's function. -/
def ADXL345update (env : AdxlEnv) (ctx : AdxlCtx) : AdxlCtx × ErrorCode × Nat :=
  match ctx.state with
  | .startup => stStartup env ctx
  | .configuring => stConfiguring env ctx
  | .measuringSTOff => stMeasuringST_OFF env ctx
  | .waitingForSTenabled => stWaitingForSTenabled env ctx
  | .measuringSTOn => stMeasuringST_ON env ctx
  | .measuring => stMeasuring env ctx
  | .error => stError env ctx

end ADXL345

namespace SSD1306

/-- Maximum number of milliseconds screen SPI traffic should last before timeout. -/
def SPI_TIMEOUT_MS : Nat := 10

/-- Maximum SSD1306 data size (the source comment reads 128 x 64 pixels at
8 pixels per byte). -/
def MAX_DATA_SIZE : Nat := 1024

/-- Number of characters in the angle array. -/
def ANGLE_NB_CHARS : Nat := 6

/-- Index of the highest column. -/
def SSD_LAST_COLUMN : Nat := 127

/-- Index of the highest page, as defined in the source. -/
def SSD_LAST_PAGE : Nat := 31

/-- Page at which the referential-type icon is drawn (SSD_LAST_PAGE). -/
def REFTYPE_PAGE : Nat := SSD_LAST_PAGE

/-- Column at which the referential-type icon starts: SSD_LAST_COLUMN minus
the icon byte count.  REFERENCETYPE_NB_BYTES comes from icons.h, which is
not under src/, so the icon byte count is kept as a parameter. -/
def REFTYPE_COLUMN (refNbBytes : Nat) : Nat := SSD_LAST_COLUMN - refNbBytes

/-- Maximum number of parameters a command can have. -/
def MAX_PARAMETERS : Nat := 6

/-- Function identifier SSD1306initialise. -/
def INIT : Nat := 0

/-- Function identifier sendCommand. -/
def SEND_CMD : Nat := 1

/-- Function identifier SSD1306_printAngleTenths. -/
def PRT_ANGLE : Nat := 2

/-- Function identifier stSendingData. -/
def SENDING_DATA : Nat := 3

/-- Function identifier stWaitingForTXdone. -/
def WAITING_DMA_RDY : Nat := 4

/-- States of the display state machine. -/
inductive ScreenState where
  | configuring
  | idle
  | sendingData
  | waitingForTXdone
deriving DecidableEq, Repr

/-- Module state of the SSD1306 driver: current machine state and the staged
sub-rectangle (_limitColumns, _limitPages) with its byte count (_size).
The frame-buffer pixel contents are filled from compile-time bitmap and
font data, which the spec treats as external collaborators; they do not
influence the staging values or the state machine and are not modelled. -/
structure ScreenCtx where
  state : ScreenState
  limitColumns : Nat × Nat
  limitPages : Nat × Nat
  size : Nat
deriving DecidableEq, Repr

/-- The rotation axes accepted by the angle-printing call. -/
inductive RotationAxis where
  | ROLL
  | PITCH
deriving DecidableEq, Repr

/-- Referential types accepted by the referential-icon call. -/
inductive ReferentialType where
  | ABSOLUTE
  | RELATIVE
deriving DecidableEq, Repr

/-- Environment of one display invocation: whether the k-th timed command
transaction times out, whether screenTimer_ms has reached zero at the poll,
and the DMA error and completion flags. -/
structure ScreenEnv where
  timedOut : Nat → Bool
  screenTimerZero : Bool
  dmaError : Bool
  dmaComplete : Bool

/-- sendCommand from the source: reject more than MAX_PARAMETERS parameters
before touching the bus, otherwise perform one timed command transaction
which either completes or times out.  Returns the code and the number of
transactions performed. -/
def sendCommand (nbParameters : Nat) (timedOut : Bool) : ErrorCode × Nat :=
  if nbParameters > MAX_PARAMETERS then
    (createErrorCode SEND_CMD 1 ERR_WARNING, 0)
  else if timedOut then
    (createErrorCode SEND_CMD 2 ERR_WARNING, 1)
  else
    (ERR_SUCCESS, 1)

/-- SSD1306drawBaseScreen from the source: stage the whole screen as the
drawing window (columns 0 to SSD_LAST_COLUMN, pages 0 to SSD_LAST_PAGE,
MAX_DATA_SIZE bytes), fill the buffer with the base image, and force the
machine to sendingData. -/
def SSD1306drawBaseScreen (ctx : ScreenCtx) : ScreenCtx × ErrorCode :=
  ({ ctx with limitColumns := (0, SSD_LAST_COLUMN), limitPages := (0, SSD_LAST_PAGE), size := MAX_DATA_SIZE, state := .sendingData }, ERR_SUCCESS)

/-- isScreenReady from the source. -/
def isScreenReady (ctx : ScreenCtx) : Bool := ctx.state == ScreenState.idle

/-- SSD1306_printAngleTenths from the source: clamp the angle to plus or
minus 90.0 degrees, stage the six-character window at column 40 on the two
pages of the requested axis, render the glyphs, and force the machine to
sendingData.  VERDANA_CHAR_WIDTH and VERDANA_NB_BYTES_CHAR come from
numbersVerdana16.h, which is not under src/, so they are parameters; glyph
rendering itself only writes pixel data and is not modelled. -/
def SSD1306_printAngleTenths (charWidth nbBytesChar : Nat) (_angleTenths : Int)
    (rotationAxis : RotationAxis) (ctx : ScreenCtx) : ScreenCtx × ErrorCode :=
  let page : Nat := match rotationAxis with
    | .ROLL => 1
    | .PITCH => 5
  ({ ctx with limitColumns := (40, 40 + charWidth * ANGLE_NB_CHARS - 1), limitPages := (page, page + 1), size := ANGLE_NB_CHARS * nbBytesChar, state := .sendingData }, ERR_SUCCESS)

/-- SSD1306_printReferentialIcon from the source: stage the icon window at
the last page, columns REFTYPE_COLUMN to REFTYPE_COLUMN plus the icon byte
count, with the icon byte count as size, and force the machine to
sendingData. -/
def SSD1306_printReferentialIcon (refNbBytes : Nat) (_type : ReferentialType)
    (ctx : ScreenCtx) : ScreenCtx × ErrorCode :=
  ({ ctx with limitColumns := (REFTYPE_COLUMN refNbBytes, REFTYPE_COLUMN refNbBytes + refNbBytes), limitPages := (REFTYPE_PAGE, REFTYPE_PAGE), size := refNbBytes, state := .sendingData }, ERR_SUCCESS)

/-- SSD1306_printHoldIcon from the source: stage the icon window at the last
page, columns REFTYPE_COLUMN minus the icon byte count to REFTYPE_COLUMN,
with the icon byte count as size, and force the machine to sendingData. -/
def SSD1306_printHoldIcon (refNbBytes : Nat) (_status : Bool)
    (ctx : ScreenCtx) : ScreenCtx × ErrorCode :=
  ({ ctx with limitColumns := (REFTYPE_COLUMN refNbBytes - refNbBytes, REFTYPE_COLUMN refNbBytes), limitPages := (REFTYPE_PAGE, REFTYPE_PAGE), size := refNbBytes, state := .sendingData }, ERR_SUCCESS)

/-- Parameter counts of the eight commands written by the display
stConfiguring, in the documented order: scan direction, pin config, segment
remap, addressing mode, contrast, clock, charge pump, display on. -/
def initCommandsNbParams : List Nat := [0, 1, 0, 1, 1, 1, 1, 0]

/-- The command loop of the display stConfiguring: send each setup command
in order, stopping at the first failure. -/
def screenConfigLoop (env : ScreenEnv) : List Nat → Nat → ErrorCode × Nat
  | [], k => (ERR_SUCCESS, k)
  | n :: rest, k =>
    match sendCommand n (env.timedOut k) with
    | (code, c) =>
      if isError code then (code, k + c)
      else screenConfigLoop env rest (k + c)

/-- stConfiguring of the display from the source: pulse the reset pin, write
the fixed ordered setup commands (returning the pushed code, and staying in
configuring, on failure), then prepare and stage the full-screen base image
and go to sendingData. -/
def stConfiguring (env : ScreenEnv) (ctx : ScreenCtx) :
    ScreenCtx × ErrorCode × Nat :=
  match screenConfigLoop env initCommandsNbParams 0 with
  | (code, k1) =>
    if isError code then
      (ctx, pushErrorCode code INIT 1, k1)
    else
      match SSD1306drawBaseScreen ctx with
      | (ctx1, code2) =>
        if isError code2 then
          (ctx1, pushErrorCode code2 INIT 2, k1)
        else
          ({ ctx1 with state := .sendingData }, ERR_SUCCESS, k1)

/-- stIdle of the display from the source: the drain state, stays until a
buffer-preparation call re-stages a region. -/
def stIdle (_env : ScreenEnv) (ctx : ScreenCtx) : ScreenCtx × ErrorCode × Nat :=
  (ctx, ERR_SUCCESS, 0)

/-- stSendingData from the source: send the column-address command then the
page-address command (two parameters each); on either failure return to
idle with the pushed code; on success arm the DMA transfer and the outer
timer and advance to waitingForTXdone. -/
def stSendingData (env : ScreenEnv) (ctx : ScreenCtx) :
    ScreenCtx × ErrorCode × Nat :=
  match sendCommand 2 (env.timedOut 0) with
  | (code, c1) =>
    if isError code then
      ({ ctx with state := .idle }, pushErrorCode code SENDING_DATA 1, c1)
    else
      match sendCommand 2 (env.timedOut 1) with
      | (code2, c2) =>
        if isError code2 then
          ({ ctx with state := .idle }, pushErrorCode code2 SENDING_DATA 2, c1 + c2)
        else
          ({ ctx with state := .waitingForTXdone }, ERR_SUCCESS, c1 + c2)

/-- stWaitingForTXdone from the source: on outer timer expiry or DMA error
flag, finalise with an error code; if the transfer is not complete yet,
stay; on completion, finalise with success.  Every finalisation disables
the DMA channel and the SPI and returns the machine to idle. -/
def stWaitingForTXdone (env : ScreenEnv) (ctx : ScreenCtx) :
    ScreenCtx × ErrorCode × Nat :=
  if env.screenTimerZero then
    ({ ctx with state := .idle }, createErrorCode WAITING_DMA_RDY 1 ERR_ERROR, 0)
  else if env.dmaError then
    ({ ctx with state := .idle }, createErrorCode WAITING_DMA_RDY 2 ERR_ERROR, 0)
  else if env.dmaComplete = false then
    (ctx, ERR_SUCCESS, 0)
  else
    ({ ctx with state := .idle }, ERR_SUCCESS, 0)

/-- SSD1306update from the source: dispatch exactly one invocation of the
current state's function. -/
def SSD1306update (env : ScreenEnv) (ctx : ScreenCtx) :
    ScreenCtx × ErrorCode × Nat :=
  match ctx.state with
  | .configuring => stConfiguring env ctx
  | .idle => stIdle env ctx
  | .sendingData => stSendingData env ctx
  | .waitingForTXdone => stWaitingForTXdone env ctx

end SSD1306

namespace ADXL345

/-- Per-axis accumulated sum of n burst samples starting at transaction slot
k, taking the two bytes at burst positions lo and hi of each sample: the
value the integration loop accumulates for that axis when no read fails. -/
def fifoSum (env : AdxlEnv) (lo hi : Nat) : Nat → Nat → Int
  | _, 0 => 0
  | k, n + 1 =>
    twoComplement (env.data k lo) (env.data k hi) + fifoSum env lo hi (k + 1) n

/-- Low byte of the 16-bit two's-complement encoding of a signed value. -/
def int16lo (x : Int) : Nat := (x % 65536).toNat % 256

/-- High byte of the 16-bit two's-complement encoding of a signed value. -/
def int16hi (x : Int) : Nat := (x % 65536).toNat / 256

/-- A bus environment in which the watermark is asserted, no transaction
times out, and every burst read delivers the same sample triple
(sx, sy, sz) encoded little-endian per axis. -/
def constEnv (sx sy sz : Int) : AdxlEnv :=
  ⟨true, fun _ => false,
   fun _ j => [int16lo sx, int16hi sx, int16lo sy, int16hi sy,
               int16lo sz, int16hi sz].getD j 0⟩

/-- A bus environment in which the watermark is asserted, no transaction
times out, and every read delivers zero bytes. -/
def envOk : AdxlEnv := ⟨true, fun _ => false, fun _ _ => 0⟩

/-- A bus environment in which every timed transaction times out. -/
def envTimeout : AdxlEnv := ⟨true, fun _ => true, fun _ _ => 0⟩

/-- The driver context right after initialisation: startup state, outer
timer at its full 1 s span, all sample sets zero. -/
def adxlCtx0 : AdxlCtx :=
  ⟨.startup, INT_TIMEOUT_MS, (0, 0, 0), (0, 0, 0), (0, 0, 0), false⟩

/-- A context sitting in the configuring state. -/
def ctxConfiguring : AdxlCtx := { adxlCtx0 with state := .configuring }

/-- A context sitting in the self-test-on measuring state with a zero
baseline, so integrated values equal self-test deltas. -/
def ctxSTOn : AdxlCtx := { adxlCtx0 with state := .measuringSTOn }

/-- A context sitting in the settle-delay wait state with the 25 ms timer
just armed (as stMeasuringST_OFF leaves it). -/
def ctxSTWait25 : AdxlCtx :=
  { adxlCtx0 with state := .waitingForSTenabled, timer := ST_WAIT_MS }

/-- A context sitting in the settle-delay wait state after the 25 ms timer
has counted down to zero. -/
def ctxSTWait0 : AdxlCtx :=
  { adxlCtx0 with state := .waitingForSTenabled, timer := 0 }

end ADXL345

namespace SSD1306

/-- The display context at driver construction. -/
def screenCtx0 : ScreenCtx := ⟨.configuring, (0, 0), (0, 0), 0⟩

/-- A display environment in which nothing times out, the DMA reports no
error and the transfer is complete. -/
def screenEnvDone : ScreenEnv := ⟨fun _ => false, false, false, true⟩

end SSD1306

namespace ADXL345

/-- One register write consumes at most one transaction slot. -/
theorem writeRegister_idx_le (r v : Nat) (env : AdxlEnv) (k : Nat) :
    (writeRegister r v env k).2 ≤ k + 1 := by
  unfold writeRegister
  split_ifs <;> simp

/-- One burst read consumes at most one transaction slot. -/
theorem readRegisters_idx_le (r s : Nat) (env : AdxlEnv) (k : Nat) :
    (readRegisters r s env k).2.2 ≤ k + 1 := by
  unfold readRegisters
  split_ifs <;> simp

/-- The integration loop over n samples consumes at most n transaction slots. -/
theorem integrateLoop_idx_le (env : AdxlEnv) :
    ∀ (n k : Nat) (acc : Int × Int × Int),
      (integrateLoop env n k acc).2.2 ≤ k + n := by
  intro n
  induction n with
  | zero => intro k acc; simp [integrateLoop]
  | succ n ih =>
    intro k acc
    have hR := readRegisters_idx_le DATA_X0 ADXL_NB_DATA_REGISTERS env k
    unfold integrateLoop
    rcases h : readRegisters DATA_X0 ADXL_NB_DATA_REGISTERS env k with ⟨code, bytes, k1⟩
    rw [h] at hR
    simp only at hR
    dsimp only
    split_ifs
    · simpa using Nat.le_trans hR (by omega)
    · exact Nat.le_trans (ih k1 (addSample acc bytes)) (by omega)

/-- FIFO integration consumes at most ADXL_AVG_SAMPLES transaction slots. -/
theorem integrateFIFO_idx_le (env : AdxlEnv) (k : Nat) :
    (integrateFIFO env k).2.2 ≤ k + ADXL_AVG_SAMPLES := by
  have h := integrateLoop_idx_le env ADXL_AVG_SAMPLES k (0, 0, 0)
  unfold integrateFIFO
  rcases hL : integrateLoop env ADXL_AVG_SAMPLES k (0, 0, 0) with ⟨code, acc, k1⟩
  rw [hL] at h
  simp only at h
  dsimp only
  split_ifs <;> simpa using h

/-- The configuration write loop consumes at most one slot per entry. -/
theorem configLoop_idx_le (env : AdxlEnv) :
    ∀ (l : List (Nat × Nat)) (k : Nat), (configLoop env l k).2 ≤ k + l.length := by
  intro l
  induction l with
  | nil => intro k; simp [configLoop]
  | cons rv rest ih =>
    intro k
    have hW := writeRegister_idx_le rv.1 rv.2 env k
    unfold configLoop
    rcases h : writeRegister rv.1 rv.2 env k with ⟨code, k1⟩
    rw [h] at hW
    simp only at hW
    dsimp only
    split_ifs
    · exact Nat.le_trans hW (by simp only [List.length_cons]; omega)
    · exact Nat.le_trans (ih k1) (by simp only [List.length_cons]; omega)

end ADXL345

namespace SSD1306

/-- One command consumes at most one transaction slot. -/
theorem sendCommand_count_le (n : Nat) (t : Bool) : (sendCommand n t).2 ≤ 1 := by
  unfold sendCommand
  split_ifs <;> simp

/-- The display configuration loop consumes at most one slot per entry. -/
theorem screenConfigLoop_idx_le (env : ScreenEnv) :
    ∀ (l : List Nat) (k : Nat), (screenConfigLoop env l k).2 ≤ k + l.length := by
  intro l
  induction l with
  | nil => intro k; simp [screenConfigLoop]
  | cons n rest ih =>
    intro k
    have hC := sendCommand_count_le n (env.timedOut k)
    unfold screenConfigLoop
    rcases h : sendCommand n (env.timedOut k) with ⟨code, c⟩
    rw [h] at hC
    simp only at hC
    dsimp only
    split_ifs
    · simp only [List.length_cons]; omega
    · exact Nat.le_trans (ih (k + c)) (by simp only [List.length_cons]; omega)

end SSD1306

namespace ADXL345

/-- Each reassembled sample lies in the signed 16-bit range, so the sum of
ADXL_AVG_SAMPLES of them fits comfortably in the 32-bit accumulator. -/
theorem twoComplement_bounds (lo hi : Nat) :
    -32768 ≤ twoComplement lo hi ∧ twoComplement lo hi ≤ 32767 := by
  unfold twoComplement
  have h1 : hi % 256 < 256 := Nat.mod_lt _ (by norm_num)
  have h2 : lo % 256 < 256 := Nat.mod_lt _ (by norm_num)
  split_ifs with h <;> constructor <;> omega

/-- The accumulated per-axis sum of n samples lies between -(n * 32768) and
n * 32767: the 32-bit accumulator never overflows for n = 32. -/
theorem fifoSum_bounds (env : AdxlEnv) (lo hi : Nat) :
    ∀ (n k : Nat), -((n : Int) * 32768) ≤ fifoSum env lo hi k n ∧
      fifoSum env lo hi k n ≤ (n : Int) * 32767 := by
  intro n
  induction n with
  | zero => intro k; simp [fifoSum]
  | succ n ih =>
    intro k
    have hs := twoComplement_bounds (env.data k lo) (env.data k hi)
    have hrest := ih (k + 1)
    unfold fifoSum
    push_cast
    constructor <;> nlinarith [hs.1, hs.2, hrest.1, hrest.2]

/-- A successful six-byte burst read delivers the six bytes of the
environment for its slot. -/
theorem readRegisters_data_ok (env : AdxlEnv) (k : Nat)
    (h0 : env.timedOut k = false) :
    readRegisters DATA_X0 ADXL_NB_DATA_REGISTERS env k =
      (ERR_SUCCESS, [env.data k 0, env.data k 1, env.data k 2, env.data k 3,
        env.data k 4, env.data k 5], k + 1) := by
  have hrange : (List.range 6).map (env.data k) =
      [env.data k 0, env.data k 1, env.data k 2, env.data k 3,
        env.data k 4, env.data k 5] := rfl
  unfold readRegisters
  rw [if_neg (by decide), if_neg (by decide), h0]
  simpa using hrange

/-- When no burst read in its window times out, the integration loop
succeeds and accumulates exactly the per-axis sums of the delivered
samples, consuming one slot per sample. -/
theorem integrateLoop_ok (env : AdxlEnv) :
    ∀ (n k : Nat) (acc : Int × Int × Int),
      (∀ j, j < n → env.timedOut (k + j) = false) →
      integrateLoop env n k acc =
        (ERR_SUCCESS,
          (acc.1 + fifoSum env 0 1 k n, acc.2.1 + fifoSum env 2 3 k n,
            acc.2.2 + fifoSum env 4 5 k n), k + n) := by
  intro n
  induction n with
  | zero => intro k acc h; simp [integrateLoop, fifoSum]
  | succ n ih =>
    intro k acc h
    have h0 : env.timedOut (k + 0) = false := h 0 (by omega)
    rw [Nat.add_zero] at h0
    unfold integrateLoop
    rw [readRegisters_data_ok env k h0]
    dsimp only
    split_ifs with hc
    · exact absurd hc (by decide)
    · rw [ih (k + 1) _ (fun j hj => by
        have hj1 := h (j + 1) (by omega)
        rwa [show k + (j + 1) = k + 1 + j by omega] at hj1)]
      simp only [addSample, fifoSum, List.getD, List.get?, Option.getD_some,
        Prod.mk.injEq]
      refine ⟨trivial, ⟨?_, ?_, ?_⟩, by omega⟩ <;> ring

/-- When no burst read in its window times out, integrateFIFO returns the
arithmetic shift (by ADXL_AVG_SHIFT) of the per-axis sums of the
ADXL_AVG_SAMPLES delivered samples. -/
theorem integrateFIFO_ok (env : AdxlEnv) (k : Nat)
    (h : ∀ j, j < ADXL_AVG_SAMPLES → env.timedOut (k + j) = false) :
    integrateFIFO env k =
      (ERR_SUCCESS,
        (sar (fifoSum env 0 1 k ADXL_AVG_SAMPLES) ADXL_AVG_SHIFT,
          sar (fifoSum env 2 3 k ADXL_AVG_SAMPLES) ADXL_AVG_SHIFT,
          sar (fifoSum env 4 5 k ADXL_AVG_SAMPLES) ADXL_AVG_SHIFT),
        k + ADXL_AVG_SAMPLES) := by
  unfold integrateFIFO
  rw [integrateLoop_ok env ADXL_AVG_SAMPLES k (0, 0, 0) h]
  dsimp only
  split_ifs with hc
  · exact absurd hc (by decide)
  · simp

/-- Reassembling the little-endian two's-complement encoding of a signed
16-bit value gives the value back. -/
theorem twoComplement_int16 (x : Int) (h1 : -32768 ≤ x) (h2 : x < 32768) :
    twoComplement (int16lo x) (int16hi x) = x := by
  unfold twoComplement int16lo int16hi
  have h0 : (0 : Int) ≤ x % 65536 := by omega
  have h3 : x % 65536 < 65536 := by omega
  have h4 : ((x % 65536).toNat : Int) = x % 65536 := Int.toNat_of_nonneg h0
  split_ifs with h <;> push_cast <;> omega

end ADXL345

namespace ADXL345

/-- In the constant-sample environment, the X-axis accumulated sum of n
samples is n times the X sample. -/
theorem fifoSum_const_x (sx sy sz : Int) (h1 : -32768 ≤ sx) (h2 : sx < 32768) :
    ∀ (n k : Nat), fifoSum (constEnv sx sy sz) 0 1 k n = (n : Int) * sx := by
  intro n
  induction n with
  | zero => intro k; simp [fifoSum]
  | succ n ih =>
    intro k
    unfold fifoSum
    rw [ih (k + 1)]
    show twoComplement (int16lo sx) (int16hi sx) + (n : Int) * sx = ((n + 1 : Nat) : Int) * sx
    rw [twoComplement_int16 sx h1 h2]
    push_cast
    ring

/-- In the constant-sample environment, the Y-axis accumulated sum of n
samples is n times the Y sample. -/
theorem fifoSum_const_y (sx sy sz : Int) (h1 : -32768 ≤ sy) (h2 : sy < 32768) :
    ∀ (n k : Nat), fifoSum (constEnv sx sy sz) 2 3 k n = (n : Int) * sy := by
  intro n
  induction n with
  | zero => intro k; simp [fifoSum]
  | succ n ih =>
    intro k
    unfold fifoSum
    rw [ih (k + 1)]
    show twoComplement (int16lo sy) (int16hi sy) + (n : Int) * sy = ((n + 1 : Nat) : Int) * sy
    rw [twoComplement_int16 sy h1 h2]
    push_cast
    ring

/-- In the constant-sample environment, the Z-axis accumulated sum of n
samples is n times the Z sample. -/
theorem fifoSum_const_z (sx sy sz : Int) (h1 : -32768 ≤ sz) (h2 : sz < 32768) :
    ∀ (n k : Nat), fifoSum (constEnv sx sy sz) 4 5 k n = (n : Int) * sz := by
  intro n
  induction n with
  | zero => intro k; simp [fifoSum]
  | succ n ih =>
    intro k
    unfold fifoSum
    rw [ih (k + 1)]
    show twoComplement (int16lo sz) (int16hi sz) + (n : Int) * sz = ((n + 1 : Nat) : Int) * sz
    rw [twoComplement_int16 sz h1 h2]
    push_cast
    ring

/-- In the constant-sample environment, FIFO integration returns exactly the
constant sample triple: the average of 32 equal samples. -/
theorem integrateFIFO_const (sx sy sz : Int)
    (hx1 : -32768 ≤ sx) (hx2 : sx < 32768)
    (hy1 : -32768 ≤ sy) (hy2 : sy < 32768)
    (hz1 : -32768 ≤ sz) (hz2 : sz < 32768) :
    integrateFIFO (constEnv sx sy sz) 0 = (ERR_SUCCESS, (sx, sy, sz), 32) := by
  rw [integrateFIFO_ok (constEnv sx sy sz) 0 (fun j hj => rfl)]
  rw [show (0 : Nat) + ADXL_AVG_SAMPLES = 32 from rfl]
  rw [fifoSum_const_x sx sy sz hx1 hx2, fifoSum_const_y sx sy sz hy1 hy2,
    fifoSum_const_z sx sy sz hz1 hz2]
  unfold sar ADXL_AVG_SHIFT ADXL_AVG_SAMPLES
  norm_num

end ADXL345

/-- Claim C9 (confirmed): for every stored axis sample set in which the Z
sample is exactly zero, getAngleDegreesTenths returns 0 for every requested
axis, regardless of the X and Y samples and of the zero offsets: the
division by Z is guarded and never performed (the arctangent conversion is
universally quantified, so the guarded branch is never consulted). -/
theorem C9_angle_zero_guard (atanDegreesTenths : Int → Int → Int)
    (ctx : ADXL345.AdxlCtx) (axis : ADXL345.Axis)
    (h : ctx.latest.2.2 = 0) :
    ADXL345.getAngleDegreesTenths atanDegreesTenths ctx axis = 0 := by
  simp [ADXL345.getAngleDegreesTenths, h]

/-- Witness for C9: a context with Z = 0 and nonzero X, Y and offsets
evaluates to angle 0. -/
theorem C9_angle_zero_guard_witness :
    ADXL345.getAngleDegreesTenths (fun a z => a * 1000 + z)
      { ADXL345.adxlCtx0 with latest := (123, -456, 0), zero := (7, 8, 9) }
      ADXL345.Axis.X = 0 :=
  C9_angle_zero_guard (fun a z => a * 1000 + z)
    { ADXL345.adxlCtx0 with latest := (123, -456, 0), zero := (7, 8, 9) }
    ADXL345.Axis.X rfl

/-- Claim C10 (confirmed): for every axis, calling ADXL345hasChanged twice
in succession with no intervening update of the latest samples returns
false the second time, because the first call overwrites the per-axis
last-queried baseline with the latest sample. -/
theorem C10_hasChanged_second_false (ctx : ADXL345.AdxlCtx)
    (axis : ADXL345.Axis) :
    (ADXL345.ADXL345hasChanged axis
      (ADXL345.ADXL345hasChanged axis ctx).2).1 = false := by
  cases axis <;>
    simp [ADXL345.ADXL345hasChanged, ADXL345.axisGet, ADXL345.axisSet]

/-- Claim C7 (confirmed): whenever the display state machine terminates a
transfer, by DMA completion, DMA error flag, outer timer expiry, or failure
of either address command, its next state is Idle, so the display driver
never enters a terminal error state. -/
theorem C7_transfer_terminates_to_idle :
    (∀ (env : SSD1306.ScreenEnv) (ctx : SSD1306.ScreenCtx),
      (env.screenTimerZero = true ∨ env.dmaError = true ∨ env.dmaComplete = true) →
      (SSD1306.stWaitingForTXdone env ctx).1.state = SSD1306.ScreenState.idle) ∧
    (∀ (env : SSD1306.ScreenEnv) (ctx : SSD1306.ScreenCtx),
      isError (SSD1306.stSendingData env ctx).2.1 = true →
      (SSD1306.stSendingData env ctx).1.state = SSD1306.ScreenState.idle) := by
  constructor
  · intro env ctx h
    unfold SSD1306.stWaitingForTXdone
    rcases h with h | h | h <;> split_ifs <;> simp_all
  · intro env ctx h
    cases h0 : env.timedOut 0 <;> cases h1 : env.timedOut 1 <;>
      simp_all [SSD1306.stSendingData, SSD1306.sendCommand,
        SSD1306.MAX_PARAMETERS, isError, pushErrorCode, createErrorCode,
        ERR_SUCCESS, ERR_WARNING]

/-- Witness for C7: a completed DMA transfer returns the machine to idle,
and a sendingData invocation whose first command times out also ends idle. -/
theorem C7_transfer_terminates_to_idle_witness :
    (SSD1306.stWaitingForTXdone SSD1306.screenEnvDone
      { SSD1306.screenCtx0 with state := .waitingForTXdone }).1.state =
        SSD1306.ScreenState.idle ∧
    (SSD1306.stSendingData ⟨fun _ => true, false, false, false⟩
      { SSD1306.screenCtx0 with state := .sendingData }).1.state =
        SSD1306.ScreenState.idle :=
  ⟨C7_transfer_terminates_to_idle.1 SSD1306.screenEnvDone
      { SSD1306.screenCtx0 with state := .waitingForTXdone }
      (Or.inr (Or.inr rfl)),
   C7_transfer_terminates_to_idle.2 ⟨fun _ => true, false, false, false⟩
      { SSD1306.screenCtx0 with state := .sendingData } (by decide)⟩

/-- Claim C3 (code_bug): the code of stWaitingForSTenabled inverts the
25 ms settle gate.  With the settle timer just armed (still running,
25 ms left) one update call immediately performs the FIFO re-enable write
(one bus transaction) and advances to measuringSTOn; once the timer has
counted down to zero, the call returns success doing nothing, forever.  The
claim (and the source's own comment) say the opposite gating. -/
theorem C3_settle_delay_inverted :
    (ADXL345.ADXL345update ADXL345.envOk ADXL345.ctxSTWait25).1.state =
      ADXL345.AdxlState.measuringSTOn ∧
    (ADXL345.ADXL345update ADXL345.envOk ADXL345.ctxSTWait25).2.2 = 1 ∧
    ADXL345.ADXL345update ADXL345.envOk ADXL345.ctxSTWait0 =
      (ADXL345.ctxSTWait0, ERR_SUCCESS, 0) := by
  refine ⟨by decide, by decide, by decide⟩

/-- Claim C5 (code_bug): after SSD1306drawBaseScreen, the staged
sub-rectangle spans (127 - 0 + 1) columns times (31 - 0 + 1) pages = 4096
bytes while the staged byte count _size is 1024, so the invariant that the
sub-rectangle area in bytes equals the byte count does not hold. -/
theorem C5_drawBaseScreen_mismatch :
    ((SSD1306.SSD1306drawBaseScreen SSD1306.screenCtx0).1.limitColumns.2 -
      (SSD1306.SSD1306drawBaseScreen SSD1306.screenCtx0).1.limitColumns.1 + 1) *
    ((SSD1306.SSD1306drawBaseScreen SSD1306.screenCtx0).1.limitPages.2 -
      (SSD1306.SSD1306drawBaseScreen SSD1306.screenCtx0).1.limitPages.1 + 1) = 4096 ∧
    (SSD1306.SSD1306drawBaseScreen SSD1306.screenCtx0).1.size = 1024 ∧
    (4096 : Nat) ≠ 1024 := by
  refine ⟨by decide, by decide, by decide⟩

/-- Counterexample for C4: in the startup state with the outer timer still
running, a failed identity read (bus timeout) leaves the machine in
Startup, not Error, while returning a failure code. -/
theorem C4_counterexample :
    (ADXL345.ADXL345update ADXL345.envTimeout ADXL345.adxlCtx0).1.state =
      ADXL345.AdxlState.startup ∧
    (ADXL345.ADXL345update ADXL345.envTimeout ADXL345.adxlCtx0).1.state ≠
      ADXL345.AdxlState.error ∧
    isError (ADXL345.ADXL345update ADXL345.envTimeout ADXL345.adxlCtx0).2.1 = true := by
  refine ⟨by decide, by decide, by decide⟩

/-- Claim C4 (corrected): in the startup state, a failed read of the
device-identity register returns the pushed error code but leaves the state
machine in Startup to retry next cycle; only the outer timeout branch
diverts Startup to the terminal Error state. -/
theorem C4_amended (env : ADXL345.AdxlEnv) (ctx : ADXL345.AdxlCtx)
    (hs : ctx.state = ADXL345.AdxlState.startup) (ht : ctx.timer ≠ 0)
    (hb : env.timedOut 0 = true) :
    (ADXL345.ADXL345update env ctx).1.state = ADXL345.AdxlState.startup ∧
    isError (ADXL345.ADXL345update env ctx).2.1 = true := by
  have hupd : ADXL345.ADXL345update env ctx = ADXL345.stStartup env ctx := by
    unfold ADXL345.ADXL345update
    rw [hs]
  rw [hupd]
  unfold ADXL345.stStartup
  rw [if_neg ht]
  have hR : ADXL345.readRegisters ADXL345.DEVICE_ID 1 env 0 =
      (createErrorCode ADXL345.READ_REGISTERS 2 ERR_WARNING, [], 1) := by
    unfold ADXL345.readRegisters
    rw [if_neg (by decide), if_neg (by decide), hb]
    simp
  rw [hR]
  dsimp only
  rw [if_pos (by decide)]
  exact ⟨hs, rfl⟩

/-- Witness for C4: the initial context under an all-timeout bus satisfies
the hypotheses and stays in Startup with a failure code. -/
theorem C4_amended_witness :
    (ADXL345.ADXL345update ADXL345.envTimeout ADXL345.adxlCtx0).1.state =
      ADXL345.AdxlState.startup ∧
    isError (ADXL345.ADXL345update ADXL345.envTimeout ADXL345.adxlCtx0).2.1 = true :=
  C4_amended ADXL345.envTimeout ADXL345.adxlCtx0 rfl (by decide) rfl

/-- Counterexample for C6: register 1 is in the reserved range, and
writeRegister rejects it with a range warning and no bus activity, but
readRegisters with nonzero size does not apply the same validation: it
accepts the reserved starting register, touches the bus (one transaction
consumed) and returns success. -/
theorem C6_counterexample :
    (1 + 255) % 256 < ADXL345.ADXL_HIGH_RESERVED_REG ∧
    ADXL345.writeRegister 1 0 ADXL345.envOk 0 =
      (createErrorCode ADXL345.WRITE_REGISTER 1 ERR_WARNING, 0) ∧
    ADXL345.readRegisters 1 1 ADXL345.envOk 0 = (ERR_SUCCESS, [0], 1) := by
  refine ⟨by decide, by decide, by decide⟩

/-- Claim C6 (corrected): writeRegister rejects every register in the
reserved range or above the addressable maximum with a range warning and no
bus activity (transaction slot unchanged); readRegisters, for nonzero
size, performs only the above-maximum part of that validation, rejecting
such a starting register before touching the bus. -/
theorem C6_amended :
    (∀ (reg v : Nat) (env : ADXL345.AdxlEnv) (k : Nat),
      (reg > ADXL345.ADXL_REGISTER_MAXNB ∨
        (reg + 255) % 256 < ADXL345.ADXL_HIGH_RESERVED_REG) →
      ADXL345.writeRegister reg v env k =
        (createErrorCode ADXL345.WRITE_REGISTER 1 ERR_WARNING, k)) ∧
    (∀ (reg size : Nat) (env : ADXL345.AdxlEnv) (k : Nat),
      size ≠ 0 → reg > ADXL345.ADXL_REGISTER_MAXNB →
      ADXL345.readRegisters reg size env k =
        (createErrorCode ADXL345.READ_REGISTERS 1 ERR_WARNING, [], k)) := by
  constructor
  · intro reg v env k h
    unfold ADXL345.writeRegister
    rw [if_pos h]
  · intro reg size env k hs hr
    unfold ADXL345.readRegisters
    rw [if_neg hs, if_pos hr]

/-- Witness for C6: the reserved register 5 is rejected by writeRegister
without bus activity, and the out-of-range register 64 is rejected by
readRegisters without bus activity. -/
theorem C6_amended_witness :
    ADXL345.writeRegister 5 0 ADXL345.envOk 0 =
      (createErrorCode ADXL345.WRITE_REGISTER 1 ERR_WARNING, 0) ∧
    ADXL345.readRegisters 64 2 ADXL345.envOk 0 =
      (createErrorCode ADXL345.READ_REGISTERS 1 ERR_WARNING, [], 0) :=
  ⟨C6_amended.1 5 0 ADXL345.envOk 0 (by decide),
   C6_amended.2 64 2 ADXL345.envOk 0 (by decide) (by decide)⟩

/-- Counterexample for C2: with a zero baseline and 32 identical self-test
samples of (85, -500, 500), the integrated deltas are exactly (85, -500,
500); the X delta equals the lower X window bound, the Y and Z deltas are
strictly inside their windows (nudging X one unit inward is accepted), yet
the machine rejects the deltas and goes to the Error state: a delta exactly
equal to a bound is rejected, not accepted. -/
theorem C2_counterexample :
    (ADXL345.integrateFIFO (ADXL345.constEnv 85 (-500) 500) 0).2.1 =
      (85, -500, 500) ∧
    (85 : Int) = (ADXL345.ST_MAXDELTAS ADXL345.Axis.X).1 ∧
    ADXL345.selfTestOutOfRange 86 (-500) 500 = false ∧
    ADXL345.selfTestOutOfRange 85 (-500) 500 = true ∧
    (ADXL345.stMeasuringST_ON (ADXL345.constEnv 85 (-500) 500)
      ADXL345.ctxSTOn).1.state = ADXL345.AdxlState.error := by
  refine ⟨by decide, by decide, by decide, by decide, by decide⟩

/-- Claim C2 (corrected): in MeasuringSelfTestOn with a zero baseline, a
delta triple is accepted (the machine advances to Measuring) exactly when
every axis delta lies strictly inside its per-axis window; a delta equal to
either bound, or one unit beyond it, falls in the rejection condition and
drives the machine to the Error state (the bounds are exclusive, not
inclusive). -/
theorem C2_amended (sx sy sz : Int)
    (hx1 : -32768 ≤ sx) (hx2 : sx < 32768)
    (hy1 : -32768 ≤ sy) (hy2 : sy < 32768)
    (hz1 : -32768 ≤ sz) (hz2 : sz < 32768) :
    (ADXL345.stMeasuringST_ON (ADXL345.constEnv sx sy sz) ADXL345.ctxSTOn).1.state =
      (if ADXL345.selfTestOutOfRange sx sy sz then ADXL345.AdxlState.error
        else ADXL345.AdxlState.measuring) := by
  unfold ADXL345.stMeasuringST_ON
  rw [if_neg (show ¬ ADXL345.ctxSTOn.timer = 0 by decide)]
  rw [if_neg (show ¬ (ADXL345.constEnv sx sy sz).fifoReady = false by
    simp [ADXL345.constEnv])]
  rw [ADXL345.integrateFIFO_const sx sy sz hx1 hx2 hy1 hy2 hz1 hz2]
  dsimp only
  rw [if_neg (show ¬ isError ERR_SUCCESS = true by decide)]
  rw [show ADXL345.ctxSTOn.latest = (0, 0, 0) from rfl]
  dsimp only
  simp only [sub_zero]
  split_ifs with h h2
  · rfl
  · have hW : ADXL345.writeRegister ADXL345.DATA_FORMAT ADXL345.DATA_FORMAT_DEFAULT
        (ADXL345.constEnv sx sy sz) 32 = (ERR_SUCCESS, 33) := rfl
    rw [hW] at h2
    exact absurd h2 (by decide)
  · rfl

/-- Witness for C2: the delta triple (86, -86, 119), strictly inside every
window, satisfies the ranges; the machine accepts it and advances to
Measuring. -/
theorem C2_amended_witness :
    (ADXL345.stMeasuringST_ON (ADXL345.constEnv 86 (-86) 119)
      ADXL345.ctxSTOn).1.state =
      (if ADXL345.selfTestOutOfRange 86 (-86) 119 then ADXL345.AdxlState.error
        else ADXL345.AdxlState.measuring) :=
  C2_amended 86 (-86) 119 (by decide) (by decide) (by decide) (by decide)
    (by decide) (by decide)

/-- Claim C8 (confirmed): when no burst read times out, FIFO integration
accumulates the two's-complement samples of all ADXL_AVG_SAMPLES = 32 burst
reads per axis and right-shifts each accumulator by ADXL_AVG_SHIFT = 5,
yielding exactly the floor-division mean Int.fdiv sum 32 (rounding toward
negative infinity, sign preserved); 32 equals 2 ^ 5, the build-time
static assertion ADXL_AVG_SAMPLES >>> ADXL_AVG_SHIFT == 1 holds, and each
per-axis accumulator stays within the signed 32-bit range. -/
theorem C8_integrateFIFO_floor_mean (env : ADXL345.AdxlEnv) (k : Nat)
    (h : ∀ j, j < ADXL345.ADXL_AVG_SAMPLES → env.timedOut (k + j) = false) :
    ADXL345.integrateFIFO env k =
      (ERR_SUCCESS,
        (Int.fdiv (ADXL345.fifoSum env 0 1 k ADXL345.ADXL_AVG_SAMPLES) 32,
          Int.fdiv (ADXL345.fifoSum env 2 3 k ADXL345.ADXL_AVG_SAMPLES) 32,
          Int.fdiv (ADXL345.fifoSum env 4 5 k ADXL345.ADXL_AVG_SAMPLES) 32),
        k + ADXL345.ADXL_AVG_SAMPLES) ∧
    ADXL345.ADXL_AVG_SAMPLES = 2 ^ ADXL345.ADXL_AVG_SHIFT ∧
    ADXL345.ADXL_AVG_SAMPLES >>> ADXL345.ADXL_AVG_SHIFT = 1 ∧
    -((2 : Int) ^ 31) <
      -((ADXL345.ADXL_AVG_SAMPLES : Int) * 32768) ∧
    -((ADXL345.ADXL_AVG_SAMPLES : Int) * 32768) ≤
      ADXL345.fifoSum env 0 1 k ADXL345.ADXL_AVG_SAMPLES ∧
    ADXL345.fifoSum env 0 1 k ADXL345.ADXL_AVG_SAMPLES ≤
      (ADXL345.ADXL_AVG_SAMPLES : Int) * 32767 ∧
    (ADXL345.ADXL_AVG_SAMPLES : Int) * 32767 < (2 : Int) ^ 31 := by
  refine ⟨?_, by decide, by decide, by norm_num [ADXL345.ADXL_AVG_SAMPLES],
    (ADXL345.fifoSum_bounds env 0 1 ADXL345.ADXL_AVG_SAMPLES k).1,
    (ADXL345.fifoSum_bounds env 0 1 ADXL345.ADXL_AVG_SAMPLES k).2,
    by norm_num [ADXL345.ADXL_AVG_SAMPLES]⟩
  rw [ADXL345.integrateFIFO_ok env k h]
  norm_num [ADXL345.sar, ADXL345.ADXL_AVG_SHIFT]

/-- Witness for C8: with 32 identical samples of (-3, -3, -3), a
negative-dominant input set, the hypotheses hold and integration returns
the exact mean (-3, -3, -3), sum -96 floor-divided by 32. -/
theorem C8_integrateFIFO_floor_mean_witness :
    ADXL345.integrateFIFO (ADXL345.constEnv (-3) (-3) (-3)) 0 =
      (ERR_SUCCESS, (-3, -3, -3), 32) :=
  ((C8_integrateFIFO_floor_mean (ADXL345.constEnv (-3) (-3) (-3)) 0
    (fun j hj => rfl)).1).trans (by decide)

/-- Counterexample for C1: a single invocation of ADXL345update in the
configuring state performs six timed bus transactions (the six
configuration register writes), not at most one. -/
theorem C1_counterexample :
    (ADXL345.ADXL345update ADXL345.envOk ADXL345.ctxConfiguring).2.2 = 6 ∧
    ¬ (ADXL345.ADXL345update ADXL345.envOk ADXL345.ctxConfiguring).2.2 ≤ 1 := by
  refine ⟨by decide, by decide⟩

/-- Claim C1 (corrected): a single invocation of either update entry point
executes exactly one state's logic (the single dispatch on the current
state) and performs a bounded number of timed bus transactions before
returning: at most 34 for the accelerometer (up to 32 burst reads of one
FIFO integration plus two register writes) and at most 8 for the display
(the eight configuration commands), each transaction individually bounded
by its own timeout. -/
theorem C1_amended_transaction_bound :
    (∀ (env : ADXL345.AdxlEnv) (ctx : ADXL345.AdxlCtx),
      (ADXL345.ADXL345update env ctx).2.2 ≤ 34) ∧
    (∀ (env : SSD1306.ScreenEnv) (ctx : SSD1306.ScreenCtx),
      (SSD1306.SSD1306update env ctx).2.2 ≤ 8) := by
  constructor
  · intro env ctx
    rcases ctx with ⟨st, timer, latest, prev, zero, upd⟩
    cases st
    case startup =>
      have hR := ADXL345.readRegisters_idx_le ADXL345.DEVICE_ID 1 env 0
      unfold ADXL345.ADXL345update ADXL345.stStartup
      rcases h : ADXL345.readRegisters ADXL345.DEVICE_ID 1 env 0 with ⟨c, b, k1⟩
      rw [h] at hR
      simp only at hR
      dsimp only
      split_ifs <;> dsimp only <;> omega
    case configuring =>
      have hC := ADXL345.configLoop_idx_le env ADXL345.initialisationArray 0
      unfold ADXL345.ADXL345update ADXL345.stConfiguring
      rcases h : ADXL345.configLoop env ADXL345.initialisationArray 0 with ⟨c, k1⟩
      rw [h] at hC
      simp only [ADXL345.initialisationArray, List.length_cons, List.length_nil] at hC
      dsimp only
      split_ifs <;> dsimp only <;> omega
    case measuringSTOff =>
      have hI := ADXL345.integrateFIFO_idx_le env 0
      unfold ADXL345.ADXL345update ADXL345.stMeasuringST_OFF
      rcases hIr : ADXL345.integrateFIFO env 0 with ⟨c, vals, k1⟩
      rw [hIr] at hI
      simp only [ADXL345.ADXL_AVG_SAMPLES] at hI
      dsimp only
      rcases hW1r : ADXL345.writeRegister ADXL345.DATA_FORMAT
          (ADXL345.DATA_FORMAT_DEFAULT ||| ADXL345.ADXL_SELF_TEST) env k1 with ⟨c2, k2⟩
      have hW1 := ADXL345.writeRegister_idx_le ADXL345.DATA_FORMAT
        (ADXL345.DATA_FORMAT_DEFAULT ||| ADXL345.ADXL_SELF_TEST) env k1
      rw [hW1r] at hW1
      simp only at hW1
      dsimp only
      rcases hW2r : ADXL345.writeRegister ADXL345.FIFO_CONTROL
          ADXL345.ADXL_MODE_BYPASS env k2 with ⟨c3, k3⟩
      have hW2 := ADXL345.writeRegister_idx_le ADXL345.FIFO_CONTROL
        ADXL345.ADXL_MODE_BYPASS env k2
      rw [hW2r] at hW2
      simp only at hW2
      dsimp only
      split_ifs <;> dsimp only <;> omega
    case waitingForSTenabled =>
      have hW := ADXL345.writeRegister_idx_le ADXL345.FIFO_CONTROL
        ADXL345.FIFO_CONTROL_DEFAULT env 0
      unfold ADXL345.ADXL345update ADXL345.stWaitingForSTenabled
      rcases h : ADXL345.writeRegister ADXL345.FIFO_CONTROL
          ADXL345.FIFO_CONTROL_DEFAULT env 0 with ⟨c, k1⟩
      rw [h] at hW
      simp only at hW
      dsimp only
      split_ifs <;> dsimp only <;> omega
    case measuringSTOn =>
      have hI := ADXL345.integrateFIFO_idx_le env 0
      unfold ADXL345.ADXL345update ADXL345.stMeasuringST_ON
      rcases hIr : ADXL345.integrateFIFO env 0 with ⟨c, vals, k1⟩
      rw [hIr] at hI
      simp only [ADXL345.ADXL_AVG_SAMPLES] at hI
      dsimp only
      rcases hW1r : ADXL345.writeRegister ADXL345.DATA_FORMAT
          ADXL345.DATA_FORMAT_DEFAULT env k1 with ⟨c2, k2⟩
      have hW1 := ADXL345.writeRegister_idx_le ADXL345.DATA_FORMAT
        ADXL345.DATA_FORMAT_DEFAULT env k1
      rw [hW1r] at hW1
      simp only at hW1
      dsimp only
      split_ifs <;> dsimp only <;> omega
    case measuring =>
      have hI := ADXL345.integrateFIFO_idx_le env 0
      unfold ADXL345.ADXL345update ADXL345.stMeasuring
      rcases hIr : ADXL345.integrateFIFO env 0 with ⟨c, vals, k1⟩
      rw [hIr] at hI
      simp only [ADXL345.ADXL_AVG_SAMPLES] at hI
      dsimp only
      split_ifs <;> dsimp only <;> omega
    case error =>
      unfold ADXL345.ADXL345update ADXL345.stError
      dsimp only
      omega
  · intro env ctx
    rcases ctx with ⟨st, cols, pages, sz⟩
    cases st
    case configuring =>
      have hC := SSD1306.screenConfigLoop_idx_le env SSD1306.initCommandsNbParams 0
      unfold SSD1306.SSD1306update SSD1306.stConfiguring
      rcases h : SSD1306.screenConfigLoop env SSD1306.initCommandsNbParams 0 with ⟨c, k1⟩
      rw [h] at hC
      simp only [SSD1306.initCommandsNbParams, List.length_cons, List.length_nil] at hC
      dsimp only
      split_ifs <;> dsimp only <;> omega
    case idle =>
      unfold SSD1306.SSD1306update SSD1306.stIdle
      dsimp only
      omega
    case sendingData =>
      have h1 := SSD1306.sendCommand_count_le 2 (env.timedOut 0)
      have h2 := SSD1306.sendCommand_count_le 2 (env.timedOut 1)
      unfold SSD1306.SSD1306update SSD1306.stSendingData
      rcases h1r : SSD1306.sendCommand 2 (env.timedOut 0) with ⟨c1, n1⟩
      rw [h1r] at h1
      simp only at h1
      rcases h2r : SSD1306.sendCommand 2 (env.timedOut 1) with ⟨c2, n2⟩
      rw [h2r] at h2
      simp only at h2
      dsimp only
      split_ifs <;> dsimp only <;> omega
    case waitingForTXdone =>
      unfold SSD1306.SSD1306update SSD1306.stWaitingForTXdone
      dsimp only
      split_ifs <;> dsimp only <;> omega
